import Mathlib

set_option maxRecDepth 100000

/-!
Shallow embedding of `generate.py` from the GitCommitGenerator repository.

Text is modelled as `List Char`.  Python string operations used by the code
(`str.strip`, `str.split`, `str.replace(old, '')`, slicing, `startswith`)
are embedded as executable functions with the same semantics on the ASCII
fragment the program manipulates.  The text-generation model and the
`subprocess` calls are the external boundaries: they are modelled as
explicit parameters (an oracle function, an outcome datum) so that the
control flow of the Python code can be reproduced faithfully.
-/

/-- Characters removed by Python `str.strip()` (ASCII whitespace). -/
def isPySpace (c : Char) : Bool :=
  c = ' ' ∨ c = '\t' ∨ c = '\n' ∨ c = '\r' ∨ c = '\x0b' ∨ c = '\x0c'

/-- Python `s.strip()`: drop leading and trailing whitespace. -/
def pyStrip (s : List Char) : List Char :=
  ((s.dropWhile isPySpace).reverse.dropWhile isPySpace).reverse

/-- Python `s.split('\n')`: split on newline characters, keeping empty segments. -/
def splitNl : List Char → List (List Char)
  | [] => [[]]
  | c :: rest =>
    if c = '\n' then [] :: splitNl rest
    else
      match splitNl rest with
      | [] => [[c]]
      | l :: ls => (c :: l) :: ls

/-- Fuelled worker for `pyReplaceEmpty`: scan left to right, removing each
non-overlapping occurrence of `old`. -/
def pyReplaceEmptyAux (old : List Char) : Nat → List Char → List Char
  | 0, s => s
  | _ + 1, [] => []
  | fuel + 1, c :: rest =>
    if old ≠ [] ∧ old.isPrefixOf (c :: rest) then
      pyReplaceEmptyAux old fuel ((c :: rest).drop old.length)
    else
      c :: pyReplaceEmptyAux old fuel rest

/-- Python `s.replace(old, '')`: remove every non-overlapping occurrence of
`old` from `s`, scanning left to right (identity when `old` is empty, as in
Python for an empty replacement string). -/
def pyReplaceEmpty (s old : List Char) : List Char :=
  pyReplaceEmptyAux old (s.length + 1) s

/-- Python `s[:n]` for `n ≥ 0`. -/
def pySlice (s : List Char) (n : Nat) : List Char :=
  s.take n

/-- The fixed fallback message `"chore: update code changes"` from the source. -/
def fallback_commit_message : List Char :=
  String.toList "chore: update code changes"

/-- `conventional_prefixes = ['feat', 'fix', 'docs', 'style', 'refactor', 'test', 'chore']`
(source line 130). -/
def conventional_prefixes : List (List Char) :=
  [String.toList "feat", String.toList "fix", String.toList "docs",
   String.toList "style", String.toList "refactor", String.toList "test",
   String.toList "chore"]

/-- Source lines 122-127: remove the prompt, strip, split into lines, strip
each line and keep the non-blank ones.
`lines = [line.strip() for line in cleaned_text.split('\n') if line.strip()]`. -/
def clean_lines (generated_text prompt : List Char) : List (List Char) :=
  ((splitNl (pyStrip (pyReplaceEmpty generated_text prompt))).map pyStrip).filter
    (fun l => !l.isEmpty)

/-- Source lines 129-132: if the message starts with none of the conventional
commit type words, prepend `"chore: "`. -/
def ensurePrefixed (commit_message : List Char) : List Char :=
  if conventional_prefixes.any (fun p => p.isPrefixOf commit_message) then
    commit_message
  else
    String.toList "chore: " ++ commit_message

/-- `_clean_commit_message` (source lines 114-135): strip the prompt echo,
take the first non-blank line (or the fallback), enforce the prefix rule,
and truncate to 72 characters. -/
def clean_commit_message (generated_text prompt : List Char) : List Char :=
  (ensurePrefixed ((clean_lines generated_text prompt).headD
    fallback_commit_message)).take 72

/-- `max_diff_length = 1000` (source line 57). -/
def max_diff_length : Nat := 1000

/-- The prompt f-string from source lines 62-73, with the truncated diff
spliced in. -/
def build_prompt (truncated_diff : List Char) : List Char :=
  String.toList "You are an expert at generating concise and meaningful git commit messages.\nGiven the following code changes, generate a precise commit message that follows conventional commit guidelines:\n\nCode Changes:\n"
  ++ truncated_diff
  ++ String.toList "\n\nGenerate a commit message that:\n1. Starts with a conventional commit prefix (feat, fix, docs, style, refactor, test, chore)\n2. Is under 50 characters\n3. Clearly describes the changes made\n\nCommit Message:"

/-- The generator object: `self.model` / `self.tokenizer` are truthy exactly
when `__init__` loaded them; on a loading error both are set to `None`
(modelled as `false`). -/
structure GitCommitGenerator where
  model : Bool
  tokenizer : Bool

/-- Observable actions of one run: invoking the generation model, invoking
`git commit`, printing a message. -/
inductive Event where
  | oracleCall (prompt : List Char)
  | commitCall (message : List Char)
  | printMsg (text : List Char)
deriving DecidableEq, Repr

/-- Outcome of the `subprocess.check_output(['git', 'diff', '--cached'])`
call: normal output, a nonzero exit status (`CalledProcessError`), or a
missing executable (`FileNotFoundError`). -/
inductive SubprocessOutcome where
  | success (output : List Char)
  | calledProcessError (exitCode : Nat)
  | fileNotFound
deriving DecidableEq, Repr

/-- Exceptions that can escape the adapter. -/
inductive GitToolError where
  | fileNotFoundError
deriving DecidableEq, Repr

/-- `get_git_diff` (source lines 36-47): returns the subprocess output;
the `except` clause catches only `subprocess.CalledProcessError` and turns
it into `""`; a `FileNotFoundError` (git executable missing) is not caught
and propagates. -/
def get_git_diff : SubprocessOutcome → Except GitToolError (List Char)
  | SubprocessOutcome.success output => Except.ok output
  | SubprocessOutcome.calledProcessError _ => Except.ok []
  | SubprocessOutcome.fileNotFound => Except.error GitToolError.fileNotFoundError

/-- `generate_commit_message` (source lines 49-112) together with the list
of observable events it performs.  The oracle parameter stands for the
tokenize-generate-decode sequence inside the `try` block: it receives the
prompt and either returns the decoded text or raises.  The `except` clause
catches any exception and returns the fallback. -/
def generate_commit_message_run (g : GitCommitGenerator)
    (oracle : List Char → Except Unit (List Char)) (diff : List Char) :
    List Char × List Event :=
  if diff = [] ∨ g.model = false ∨ g.tokenizer = false then
    (fallback_commit_message, [])
  else
    let truncated_diff := pySlice diff max_diff_length
    let prompt := build_prompt truncated_diff
    match oracle prompt with
    | Except.error _ => (fallback_commit_message, [Event.oracleCall prompt])
    | Except.ok generated_text =>
        (clean_commit_message generated_text prompt, [Event.oracleCall prompt])

/-- The message returned by `generate_commit_message`. -/
def generate_commit_message (g : GitCommitGenerator)
    (oracle : List Char → Except Unit (List Char)) (diff : List Char) :
    List Char :=
  (generate_commit_message_run g oracle diff).1

/-- `auto_commit` (source lines 137-153) as the list of observable events of
one run.  `commitSucceeds` is the outcome of `subprocess.run(['git',
'commit', ...], check=True)`: `false` stands for a `CalledProcessError`,
which the code catches and reports.  An uncaught exception from
`get_git_diff` propagates out of `auto_commit`. -/
def auto_commit (g : GitCommitGenerator) (diffOutcome : SubprocessOutcome)
    (oracle : List Char → Except Unit (List Char)) (commitSucceeds : Bool) :
    Except GitToolError (List Event) :=
  match get_git_diff diffOutcome with
  | Except.error e => Except.error e
  | Except.ok diff =>
    if diff = [] then
      Except.ok [Event.printMsg (String.toList "No changes to commit.")]
    else
      let result := generate_commit_message_run g oracle diff
      Except.ok (result.2 ++ [Event.commitCall result.1] ++
        (if commitSucceeds then
          [Event.printMsg (String.toList "Committed with message: " ++ result.1)]
         else
          [Event.printMsg (String.toList "Commit failed.")]))

/-! ## Helper lemmas -/

/-- Every conventional commit type word is non-empty and no longer than 72
characters. -/
theorem conventional_prefixes_facts :
    ∀ pref ∈ conventional_prefixes, pref ≠ [] ∧ pref.length ≤ 72 := by decide

/-- A prefix of length at most `n` is still a prefix after truncating to `n`. -/
theorem prefix_take_of_le {p l : List Char} {n : Nat} (h : p <+: l)
    (hn : p.length ≤ n) : p <+: l.take n := by
  obtain ⟨t, rfl⟩ := h
  rw [List.take_append_eq_append_take, List.take_of_length_le hn]
  exact ⟨t.take (n - p.length), rfl⟩

/-- `"chore" ++ ": " = "chore: "` as character lists. -/
theorem chore_append_colon :
    String.toList "chore" ++ String.toList ": " = String.toList "chore: " := by decide

/-- The output of the prefix rule always starts with one of the conventional
commit type words. -/
theorem ensurePrefixed_starts (m : List Char) :
    ∃ pref ∈ conventional_prefixes, pref <+: ensurePrefixed m := by
  unfold ensurePrefixed
  split
  · next h =>
      obtain ⟨pref, hmem, hpf⟩ := List.any_eq_true.mp h
      exact ⟨pref, hmem, List.isPrefixOf_iff_prefix.mp hpf⟩
  · refine ⟨String.toList "chore", by decide, String.toList ": " ++ m, ?_⟩
    rw [← List.append_assoc, chore_append_colon]

/-- Splitting a newline-free string on newlines yields that single segment. -/
theorem splitNl_eq_single : ∀ s : List Char, '\n' ∉ s → splitNl s = [s] := by
  intro s
  induction s with
  | nil => intro _; rfl
  | cons c rest ih =>
    intro h
    have hc : ¬(c = '\n') := fun hh => h (by rw [hh]; exact List.mem_cons_self _ _)
    have hr : '\n' ∉ rest := fun hh => h (List.mem_cons_of_mem _ hh)
    simp only [splitNl]
    rw [if_neg hc, ih hr]

/-- Sanitizing an empty generation result yields the fallback message,
whatever the prompt was. -/
theorem clean_commit_message_nil (prompt : List Char) :
    clean_commit_message [] prompt = fallback_commit_message := rfl

/-- The first element of the sanitizer's candidate list is a non-blank line. -/
theorem clean_lines_head_ne_nil {g p c : List Char} {cs : List (List Char)}
    (h : clean_lines g p = c :: cs) : c ≠ [] := by
  have hc : c ∈ clean_lines g p := by rw [h]; exact List.mem_cons_self _ _
  unfold clean_lines at hc
  have hmem := (List.mem_filter.mp hc).2
  intro hnil
  rw [hnil] at hmem
  simp at hmem

/-! ## Claim theorems -/

/-- Claim C1 (counterexample): the sanitizer's output need not have the form
`<type>: <description>`.  For the raw output `"testing stuff now"` the
`startswith` check accepts the bare word `test`, so the message is returned
unchanged and no allowed prefix is followed by `": "`. -/
theorem c1_prefix_colon_cex :
    clean_commit_message (String.toList "testing stuff now") []
        = String.toList "testing stuff now" ∧
    conventional_prefixes.all
      (fun pref => !((pref ++ String.toList ": ").isPrefixOf
        (clean_commit_message (String.toList "testing stuff now") []))) = true := by
  decide

/-- Claim C1 (amended): for every generation output and every prompt,
`_clean_commit_message` returns a non-empty string of length at most 72 that
starts with one of the allowed conventional-commit type words (the code only
checks `startswith(prefix)`, it does not require `": "` to follow). -/
theorem c1_sanitizer_shape (g p : List Char) :
    clean_commit_message g p ≠ [] ∧
    (clean_commit_message g p).length ≤ 72 ∧
    ∃ pref ∈ conventional_prefixes, pref <+: clean_commit_message g p := by
  obtain ⟨pref, hmem, hpf⟩ :=
    ensurePrefixed_starts ((clean_lines g p).headD fallback_commit_message)
  obtain ⟨hne, hlen⟩ := conventional_prefixes_facts pref hmem
  have hbase :
      ensurePrefixed ((clean_lines g p).headD fallback_commit_message) ≠ [] := by
    intro h0
    rw [h0] at hpf
    exact hne (List.prefix_nil.mp hpf)
  refine ⟨?_, ?_, pref, hmem, ?_⟩
  · have hpos :
        0 < (ensurePrefixed ((clean_lines g p).headD fallback_commit_message)).length :=
      List.length_pos.mpr hbase
    have hlt : 0 < (clean_commit_message g p).length := by
      unfold clean_commit_message
      rw [List.length_take]
      exact Nat.lt_min.mpr ⟨by norm_num, hpos⟩
    exact List.length_pos.mp hlt
  · exact List.length_take_le _ _
  · exact prefix_take_of_le hpf hlen

/-- Claim C2 (counterexample): for the scenario raw output
`"Here is the diff...\nfeat: add login endpoint"` with the prompt echo
present, the sanitizer does not yield `"feat: add login endpoint"` — the
code takes the FIRST non-blank line, not the last. -/
theorem c2_last_line_cex :
    clean_commit_message
        (build_prompt (String.toList "x")
          ++ String.toList "Here is the diff...\nfeat: add login endpoint")
        (build_prompt (String.toList "x"))
      = String.toList "chore: Here is the diff..." ∧
    clean_commit_message
        (build_prompt (String.toList "x")
          ++ String.toList "Here is the diff...\nfeat: add login endpoint")
        (build_prompt (String.toList "x"))
      ≠ String.toList "feat: add login endpoint" := by
  decide

/-- Claim C2 (amended): after stripping the echoed prompt, the sanitizer
splits the remaining text into non-blank lines and takes the FIRST non-blank
line as the candidate; the final message is that candidate after the prefix
rule and 72-character truncation. -/
theorem c2_first_line (g p c : List Char) (cs : List (List Char))
    (h : clean_lines g p = c :: cs) :
    clean_commit_message g p = (ensurePrefixed c).take 72 := by
  unfold clean_commit_message
  rw [h]
  rfl

/-- Witness for `c2_first_line` at the scenario input: the first non-blank
line `"Here is the diff..."` becomes the message, chore-prefixed. -/
theorem c2_first_line_witness :
    clean_lines
        (build_prompt (String.toList "x")
          ++ String.toList "Here is the diff...\nfeat: add login endpoint")
        (build_prompt (String.toList "x"))
      = [String.toList "Here is the diff...", String.toList "feat: add login endpoint"] ∧
    clean_commit_message
        (build_prompt (String.toList "x")
          ++ String.toList "Here is the diff...\nfeat: add login endpoint")
        (build_prompt (String.toList "x"))
      = (ensurePrefixed (String.toList "Here is the diff...")).take 72 := by
  refine ⟨by decide, ?_⟩
  exact c2_first_line _ _ _ [String.toList "feat: add login endpoint"] (by decide)

/-- Claim C3 (counterexample): the code has no minimum-length check.  The
candidate `"x"` (1 character, well below any 10-character minimum) is not
replaced by the fallback: the sanitizer returns `"chore: x"`. -/
theorem c3_min_length_cex :
    (String.toList "x").length < 10 ∧
    clean_lines (String.toList "x") [] = [String.toList "x"] ∧
    clean_commit_message (String.toList "x") [] = String.toList "chore: x" ∧
    clean_commit_message (String.toList "x") [] ≠ fallback_commit_message := by
  decide

/-- Claim C3 (amended): the sanitizer returns the fallback
`"chore: update code changes"` exactly when there is no non-blank candidate
line; any non-blank candidate, however short, is kept (after the prefix rule
and the 72-character truncation) — there is no minimum-length check. -/
theorem c3_fallback_condition (g p : List Char) :
    (clean_lines g p = [] → clean_commit_message g p = fallback_commit_message) ∧
    (∀ c cs, clean_lines g p = c :: cs →
      c ≠ [] ∧ clean_commit_message g p = (ensurePrefixed c).take 72) := by
  constructor
  · intro h
    unfold clean_commit_message
    rw [h]
    decide
  · intro c cs h
    refine ⟨clean_lines_head_ne_nil h, ?_⟩
    unfold clean_commit_message
    rw [h]
    rfl

/-- Witness for `c3_fallback_condition` at the raw output `"x"`: the short
candidate is kept as `"chore: x"`, not replaced by the fallback. -/
theorem c3_fallback_condition_witness :
    clean_lines (String.toList "x") [] = [String.toList "x"] ∧
    (String.toList "x" ≠ [] ∧
      clean_commit_message (String.toList "x") []
        = (ensurePrefixed (String.toList "x")).take 72) :=
  ⟨by decide, (c3_fallback_condition (String.toList "x") []).2 (String.toList "x") [] (by decide)⟩

/-- Claim C4 (counterexample): when the git executable is missing the
`except subprocess.CalledProcessError` clause does not apply; the
`FileNotFoundError` propagates instead of being reported as an empty diff. -/
theorem c4_tool_missing_cex :
    get_git_diff SubprocessOutcome.fileNotFound
        = Except.error GitToolError.fileNotFoundError ∧
    get_git_diff SubprocessOutcome.fileNotFound ≠ Except.ok [] :=
  ⟨rfl, fun h => Except.noConfusion h⟩

/-- Claim C4 (amended): `get_git_diff` returns the captured output on
success (empty when nothing is staged), returns the empty string when the
git invocation exits nonzero (`CalledProcessError`, e.g. not a repository),
but lets a missing tool (`FileNotFoundError`) propagate, so that failure
mode does terminate the run abnormally. -/
theorem c4_adapter_behavior :
    (∀ out, get_git_diff (SubprocessOutcome.success out) = Except.ok out) ∧
    (∀ code, get_git_diff (SubprocessOutcome.calledProcessError code) = Except.ok []) ∧
    get_git_diff SubprocessOutcome.fileNotFound
      = Except.error GitToolError.fileNotFoundError :=
  ⟨fun _ => rfl, fun _ => rfl, rfl⟩

/-- Claim C5: whenever the generation oracle raises, and likewise when it
returns an empty result, `generate_commit_message` yields exactly
`"chore: update code changes"`. -/
theorem c5_oracle_failure_fallback :
    (∀ (g : GitCommitGenerator) (diff : List Char) (e : Unit),
        generate_commit_message g (fun _ => Except.error e) diff
          = fallback_commit_message) ∧
    (∀ (g : GitCommitGenerator) (diff : List Char),
        generate_commit_message g (fun _ => Except.ok []) diff
          = fallback_commit_message) := by
  constructor
  · intro g diff e
    unfold generate_commit_message generate_commit_message_run
    split
    · rfl
    · rfl
  · intro g diff
    unfold generate_commit_message generate_commit_message_run
    split
    · rfl
    · exact clean_commit_message_nil (build_prompt (pySlice diff max_diff_length))

/-- Claim C6: on an empty staged diff, `auto_commit` prints exactly
`"No changes to commit."` and performs no oracle call and no commit call,
for every generator state, oracle and commit outcome. -/
theorem c6_empty_diff_no_actions (g : GitCommitGenerator)
    (oracle : List Char → Except Unit (List Char)) (commitSucceeds : Bool) :
    auto_commit g (SubprocessOutcome.success []) oracle commitSucceeds
      = Except.ok [Event.printMsg (String.toList "No changes to commit.")] := rfl

/-- Claim C7: sanitization is idempotent on already-valid messages: a
single-line, stripped message of length at most 72 that starts with an
allowed conventional-commit type word, and that does not contain the prompt
as a substring, is returned unchanged (in particular no double prefix is
ever produced). -/
theorem c7_sanitize_idempotent (msg prompt : List Char)
    (hpre : ∃ pref ∈ conventional_prefixes, pref.isPrefixOf msg = true)
    (hlen : msg.length ≤ 72)
    (hnl : '\n' ∉ msg)
    (hstrip : pyStrip msg = msg)
    (hrep : pyReplaceEmpty msg prompt = msg) :
    clean_commit_message msg prompt = msg := by
  obtain ⟨pref, hmem, hpf⟩ := hpre
  have hne : msg ≠ [] := by
    obtain ⟨hpne, -⟩ := conventional_prefixes_facts pref hmem
    intro h0
    rw [h0] at hpf
    exact hpne (List.prefix_nil.mp (List.isPrefixOf_iff_prefix.mp hpf))
  have hfilter : (!msg.isEmpty) = true := by
    rw [List.isEmpty_eq_false.mpr hne]
    rfl
  have hany : conventional_prefixes.any (fun q => q.isPrefixOf msg) = true :=
    List.any_eq_true.mpr ⟨pref, hmem, hpf⟩
  unfold clean_commit_message clean_lines
  rw [hrep, hstrip, splitNl_eq_single msg hnl]
  rw [List.map_cons, List.map_nil, hstrip]
  have hfl : List.filter (fun l => !l.isEmpty) [msg] = [msg] := by
    simp [List.filter_cons, hfilter]
  rw [hfl]
  unfold ensurePrefixed
  rw [List.headD_cons, if_pos hany]
  exact List.take_of_length_le hlen

/-- Witness for `c7_sanitize_idempotent`: the already-valid message
`"feat: add x"` passes through the sanitizer unchanged. -/
theorem c7_sanitize_idempotent_witness :
    clean_commit_message (String.toList "feat: add x") (String.toList "PROMPT")
      = String.toList "feat: add x" :=
  c7_sanitize_idempotent (String.toList "feat: add x") (String.toList "PROMPT")
    (by decide) (by decide) (by decide) (by decide) (by decide)

/-- Claim C8: truncation (`diff[:n]`) never exceeds the bound, is the
identity on inputs already within the bound, and in the pipeline the
truncated diff always fits within `max_diff_length = 1000`. -/
theorem c8_truncation_law :
    (∀ (diff : List Char) (n : Nat),
        (pySlice diff n).length ≤ n ∧
        (diff.length ≤ n → pySlice diff n = diff)) ∧
    (∀ diff : List Char,
        (pySlice diff max_diff_length).length ≤ max_diff_length) := by
  constructor
  · intro diff n
    exact ⟨List.length_take_le n diff, fun h => List.take_of_length_le h⟩
  · intro diff
    exact List.length_take_le _ _

/-- Witness for `c8_truncation_law`: truncating the 3-character diff
`"abc"` to 5 characters is the identity. -/
theorem c8_truncation_law_witness :
    (String.toList "abc").length ≤ 5 ∧
    pySlice (String.toList "abc") 5 = String.toList "abc" :=
  ⟨by decide, (c8_truncation_law.1 (String.toList "abc") 5).2 (by decide)⟩

/-- Claim C9: the un-prefixed candidate
`"improve error handling across modules significantly"` is turned into
`"chore: improve error handling across modules significantly"` (59
characters, so the 72-character truncation leaves it unchanged). -/
theorem c9_no_prefix_scenario :
    clean_commit_message
        (String.toList "improve error handling across modules significantly") []
      = String.toList "chore: improve error handling across modules significantly" ∧
    (clean_commit_message
        (String.toList "improve error handling across modules significantly") []).length ≤ 72 := by
  decide

/-- Claim C10: if the diff is empty, or the model or tokenizer failed to
load, `generate_commit_message` returns the fallback immediately and the
oracle is never invoked (the event trace is empty). -/
theorem c10_guard_fallback (g : GitCommitGenerator)
    (oracle : List Char → Except Unit (List Char)) (diff : List Char)
    (h : diff = [] ∨ g.model = false ∨ g.tokenizer = false) :
    generate_commit_message_run g oracle diff = (fallback_commit_message, []) := by
  unfold generate_commit_message_run
  rw [if_pos h]

/-- Witness for `c10_guard_fallback`: with a failed model load (both fields
`None`) and a non-empty diff, the fallback is returned with no oracle call. -/
theorem c10_guard_fallback_witness :
    generate_commit_message_run ⟨false, false⟩ (fun _ => Except.ok [])
        (String.toList "diff")
      = (fallback_commit_message, []) :=
  c10_guard_fallback ⟨false, false⟩ (fun _ => Except.ok []) (String.toList "diff")
    (Or.inr (Or.inl rfl))
